import Mathlib

/-!
Shallow embedding of the multi-source fetch/consensus/quality-monitoring
engine of the livealittle-defi-backend repository
(`src/backend/multi_source_data_aggregator.py`,
`src/backend/lp_pair_data_aggregator.py`,
`src/backend/data_quality_monitor.py`).

Conventions of the embedding:
* Python floats are modelled as rationals (ℚ); every concrete value appearing
  in the claims is exactly representable, and the comparisons the code makes
  on them agree with the rational ones.
* Unix timestamps (`int(time.time())`) are modelled as an explicit `now : ℤ`
  parameter threaded into every function that reads the clock.
* `statistics.quantiles`, `statistics.median` and the filtering logic are
  translated line by line from CPython's `statistics` module (exclusive
  method, n = 4) and from the aggregator source.
* `statistics.stdev` returns the square root of the sample variance; no claim
  depends on its numeric value, only on equality between runs, so the
  `std_dev` fields store the sample variance (the square root is a monotone
  injection on nonnegative reals, hence equalities are preserved).
* Mutation of Python objects (`dp.is_valid = False`, `self.error_count += 1`)
  is modelled by returning the updated record.
-/

namespace LiveALittle

/-- `DataPoint` of `multi_source_data_aggregator.py` (lines 18-26). -/
structure DataPoint where
  source : String
  token : String
  price : ℚ
  timestamp : ℤ
  is_valid : Bool := true
  validation_errors : List String := []
deriving DecidableEq

/-- The mutable health state of a `DataSource` / `LPDataSource`
(`multi_source_data_aggregator.py` lines 29-35,
`lp_pair_data_aggregator.py` lines 49-55): `name`, `last_update`,
`is_available`, `error_count`. -/
structure DataSourceState where
  name : String
  last_update : ℤ := 0
  is_available : Bool := true
  error_count : ℕ := 0
deriving DecidableEq

/-- How one adapter fetch attempt can end, as the adapter bodies distinguish
the cases (e.g. `CoinGeckoSource.fetch_price`,
`multi_source_data_aggregator.py` lines 56-89):
* `success` — a 200 response with a usable payload;
* `soft_failure` — a non-200 response, or a 200 response whose payload is
  missing/falsy: control falls through to the final `return None`
  (`return []` in `search_pools`) past the `except` handler;
* `exception` — an exception was raised (timeout, network or parse error)
  and the `except` handler runs. -/
inductive FetchOutcome where
  | success
  | soft_failure
  | exception
deriving DecidableEq

/-- The health-state update of one `fetch_price` / `fetch_pool_data` attempt
(`multi_source_data_aggregator.py` lines 56-89, 105-140 and 149-179,
`lp_pair_data_aggregator.py` lines 78-114, 183-256 and 265-301): on success
(lines 73-75) record the timestamp, mark available and reset the error
streak; on a non-200 response or missing payload nothing is mutated and the
adapter just returns `None`; only in the `except` handler (lines 85-87) is
the streak incremented, flipping availability to false once it has
reached 3. -/
def fetch_price_update (s : DataSourceState) (outcome : FetchOutcome) (now : ℤ) :
    DataSourceState :=
  match outcome with
  | .success => { s with last_update := now, is_available := true, error_count := 0 }
  | .soft_failure => s
  | .exception =>
      let ec := s.error_count + 1
      { s with error_count := ec,
               is_available := if 3 ≤ ec then false else s.is_available }

/-- The health-state update of one `DefiLlamaPoolSource.search_pools` attempt
(`lp_pair_data_aggregator.py` lines 116-169): on success (lines 161-162) it
records the timestamp and marks the source available but, unlike the other
fetch paths, does NOT reset `error_count`; on a non-200 response nothing is
mutated and `[]` is returned; in the `except` handler (line 167) it
increments `error_count` but, unlike the other fetch paths, never flips
`is_available`. -/
def search_pools_update (s : DataSourceState) (outcome : FetchOutcome) (now : ℤ) :
    DataSourceState :=
  match outcome with
  | .success => { s with last_update := now, is_available := true }
  | .soft_failure => s
  | .exception => { s with error_count := s.error_count + 1 }

/-- `DataValidator.validate_datapoint` (`multi_source_data_aggregator.py`
lines 184-205).  Returns the boolean result together with the (possibly
mutated) data point.  The `price > 1000000` check only logs a warning and
changes nothing. -/
def validate_datapoint (dp : DataPoint) (current_time : ℤ) : Bool × DataPoint :=
  if 60 < current_time - dp.timestamp then
    (false, { dp with is_valid := false,
                      validation_errors := dp.validation_errors ++ ["Timestamp too old"] })
  else if dp.price ≤ 0 then
    (false, { dp with is_valid := false,
                      validation_errors := dp.validation_errors ++ ["Invalid price (<=0)"] })
  else
    (true, dp)

/-! ### CPython `statistics` primitives used by the consensus engines -/

/-- Python `sorted` on a list of numbers (ascending, stable). -/
def pySorted (l : List ℚ) : List ℚ :=
  List.insertionSort (· ≤ ·) l

/-- `statistics.quantiles(data, n=4)`, exclusive method, cut point `i`
(1-based, the code reads indices `[0]` and `[2]`, i.e. `i = 1` and `i = 3`).
Translated from CPython's `statistics.py`:
`m = ld + 1`; `j = clamp(i*m//4, 1, ld-1)`; `delta = i*m - j*4`;
`(data[j-1]*(4-delta) + data[j]*delta) / 4`.
Only called with `ld ≥ 3` by the aggregator. -/
def pyQuantile4 (data : List ℚ) (i : ℕ) : ℚ :=
  let s := pySorted data
  let ld := s.length
  let m := ld + 1
  let j0 := i * m / 4
  let j := if j0 < 1 then 1 else if ld - 1 < j0 then ld - 1 else j0
  let delta : ℤ := (i * m : ℤ) - (j * 4 : ℤ)
  (s.getD (j - 1) 0 * ((4 : ℚ) - (delta : ℚ)) + s.getD j 0 * (delta : ℚ)) / 4

/-- `statistics.median(data)`: middle element of the sorted list, or the mean
of the two middle elements when the length is even.  (Python raises on an
empty list; every call site guards against that.) -/
def pyMedian (l : List ℚ) : ℚ :=
  let s := pySorted l
  let n := s.length
  if n % 2 = 1 then s.getD (n / 2) 0
  else (s.getD (n / 2 - 1) 0 + s.getD (n / 2) 0) / 2

/-- The sample variance `Σ (x - mean)² / (n - 1)`.  `statistics.stdev` is its
square root; the embedding stores the variance (see the header comment). -/
def sampleVariance (l : List ℚ) : ℚ :=
  let n : ℚ := l.length
  let mean := l.sum / n
  (l.map (fun x => (x - mean) ^ 2)).sum / (n - 1)

/-- The dict returned by `ConsensusEngine.calculate_consensus`
(`multi_source_data_aggregator.py` lines 248-255). -/
structure ConsensusResult where
  price : ℚ
  std_dev : ℚ
  data_points : ℕ
  filtered_points : ℕ
  sources : List String
  timestamp : ℤ
deriving DecidableEq

/-- `ConsensusEngine.calculate_consensus` (`multi_source_data_aggregator.py`
lines 211-255): keep the valid points, return `None` below 2 of them, apply
IQR outlier filtering when at least 3 prices are present (falling back to the
unfiltered list if fewer than 2 survive), and report the median together with
the dispersion and provenance. -/
def calculate_consensus (datapoints : List DataPoint) (now : ℤ) :
    Option ConsensusResult :=
  if datapoints.isEmpty then none
  else
    let valid_points := datapoints.filter (·.is_valid)
    if valid_points.length < 2 then none
    else
      let prices := valid_points.map (·.price)
      let filtered_prices :=
        if 3 ≤ prices.length then
          let q1 := pyQuantile4 prices 1
          let q3 := pyQuantile4 prices 3
          let iqr := q3 - q1
          let lower_bound := q1 - 3 / 2 * iqr
          let upper_bound := q3 + 3 / 2 * iqr
          let f := prices.filter (fun p => decide (lower_bound ≤ p) && decide (p ≤ upper_bound))
          if f.length < 2 then prices else f
        else prices
      some { price := pyMedian filtered_prices
             std_dev := if 1 < filtered_prices.length then sampleVariance filtered_prices else 0
             data_points := valid_points.length
             filtered_points := filtered_prices.length
             sources := valid_points.map (·.source)
             timestamp := now }

/-! ### LP pair aggregator (`lp_pair_data_aggregator.py`) -/

/-- `LPPoolData` (`lp_pair_data_aggregator.py` lines 18-46). -/
structure LPPoolData where
  source : String
  pool_address : String
  protocol : String
  chain : String
  token0 : String
  token1 : String
  fee_tier : ℚ
  tvl : ℚ
  volume_24h : ℚ
  apy : ℚ
  timestamp : ℤ
  is_valid : Bool := true
  validation_errors : List String := []
deriving DecidableEq

/-- `LPDataValidator.validate_pool_data` (`lp_pair_data_aggregator.py`
lines 306-334).  Staleness beyond 300 s, a negative TVL and a negative
24 h volume each mark the point invalid with a reason; an APY outside
`[0, 10000]` only logs a warning and changes nothing. -/
def validate_pool_data (pool : LPPoolData) (current_time : ℤ) : Bool × LPPoolData :=
  if 300 < current_time - pool.timestamp then
    (false, { pool with is_valid := false,
                        validation_errors := pool.validation_errors ++ ["Data too old"] })
  else if pool.tvl < 0 then
    (false, { pool with is_valid := false,
                        validation_errors := pool.validation_errors ++ ["Invalid TVL (<0)"] })
  else if pool.volume_24h < 0 then
    (false, { pool with is_valid := false,
                        validation_errors := pool.validation_errors ++ ["Invalid volume (<0)"] })
  else
    (true, pool)

/-- The dict returned by `LPConsensusEngine.calculate_consensus`
(`lp_pair_data_aggregator.py` lines 365-380). -/
structure LPConsensusResult where
  pool_address : String
  protocol : String
  chain : String
  token0 : String
  token1 : String
  fee_tier : ℚ
  tvl : ℚ
  apy : ℚ
  volume_24h : ℚ
  data_points : ℕ
  sources : List String
  tvl_std_dev : ℚ
  apy_std_dev : ℚ
  timestamp : ℤ
deriving DecidableEq

instance : Inhabited LPPoolData :=
  ⟨⟨"", "", "", "", "", "", 0, 0, 0, 0, 0, true, []⟩⟩

/-- The list comprehension `[p.apy for p in valid_points if p.apy > 0]` of
`LPConsensusEngine.calculate_consensus` (`lp_pair_data_aggregator.py`
line 354), applied to the valid points of a raw list. -/
def positiveApys (pool_datapoints : List LPPoolData) : List ℚ :=
  ((pool_datapoints.filter (·.is_valid)).map (·.apy)).filter (fun x => decide (0 < x))

/-- `LPConsensusEngine.calculate_consensus` (`lp_pair_data_aggregator.py`
lines 340-380): keep the valid points, return `None` when none are left,
take the median of the strictly positive TVL / APY / volume values (0 when
that set is empty), and copy the descriptive fields from the first valid
point (`valid_points[0]`, modelled by `headI`, total on the guarded
nonempty case). -/
def lp_calculate_consensus (pool_datapoints : List LPPoolData) (now : ℤ) :
    Option LPConsensusResult :=
  if pool_datapoints.isEmpty then none
  else
    let valid_points := pool_datapoints.filter (·.is_valid)
    if valid_points.length < 1 then none
    else
      let first_valid := valid_points.headI
      let tvls := (valid_points.map (·.tvl)).filter (fun x => decide (0 < x))
      let apys := positiveApys pool_datapoints
      let volumes := (valid_points.map (·.volume_24h)).filter (fun x => decide (0 < x))
      some { pool_address := first_valid.pool_address
             protocol := first_valid.protocol
             chain := first_valid.chain
             token0 := first_valid.token0
             token1 := first_valid.token1
             fee_tier := first_valid.fee_tier
             tvl := if tvls.isEmpty then 0 else pyMedian tvls
             apy := if apys.isEmpty then 0 else pyMedian apys
             volume_24h := if volumes.isEmpty then 0 else pyMedian volumes
             data_points := valid_points.length
             sources := valid_points.map (·.source)
             tvl_std_dev := if 1 < tvls.length then sampleVariance tvls else 0
             apy_std_dev := if 1 < apys.length then sampleVariance apys else 0
             timestamp := now }

/-! ### Data quality monitor (`data_quality_monitor.py`) -/

/-- One entry of `PriceHistory.history` (`data_quality_monitor.py` line 23). -/
structure HistEntry where
  price : ℚ
  timestamp : ℤ
deriving DecidableEq

/-- `PriceHistory.add` (`data_quality_monitor.py` lines 21-23): append to a
`deque(maxlen=100)`, which evicts the oldest entry when full. -/
def history_add (h : List HistEntry) (price : ℚ) (timestamp : ℤ) : List HistEntry :=
  let l := h ++ [⟨price, timestamp⟩]
  l.drop (l.length - 100)

/-- `PriceHistory.get_last_price` (`data_quality_monitor.py` lines 31-35). -/
def get_last_price (h : List HistEntry) : Option ℚ :=
  h.getLast?.map (·.price)

/-- One entry of an alert's `divergent_sources` list
(`data_quality_monitor.py` lines 105-109). -/
structure DivergentSource where
  source : String
  price : ℚ
  deviation_percent : ℚ
deriving DecidableEq

/-- The alert dicts appended by `AnomalyDetector`
(`data_quality_monitor.py` lines 64-73, 113-120, 144-151, 168-174), one
constructor per `type`, severity kept as the string the code stores. -/
inductive Alert where
  | high_volatility (token : String) (old_price new_price change_percent threshold_percent : ℚ)
      (timestamp : ℤ) (severity : String)
  | data_divergence (token : String) (consensus_price : ℚ)
      (divergent_sources : List DivergentSource) (timestamp : ℤ) (severity : String)
  | source_delay (source : String) (delay_seconds max_delay_seconds : ℤ)
      (timestamp : ℤ) (severity : String)
  | system_failure (unavailable_sources total_sources : ℕ) (timestamp : ℤ) (severity : String)
deriving DecidableEq

/-- The mutable state of `AnomalyDetector` (`data_quality_monitor.py`
lines 40-42): a per-token price history (a missing key behaves like the
freshly created empty `PriceHistory`) and the alert log. -/
structure AnomalyDetectorState where
  price_histories : String → List HistEntry
  alerts : List Alert

/-- `AnomalyDetector.check_price_volatility` (`data_quality_monitor.py`
lines 50-86): on the first price for a token just record it; otherwise
compare the relative change against the threshold, appending a
`high_volatility` alert (warning below a 20 % change, critical from 20 % up)
when it is exceeded.  Every path records the new price. -/
def check_price_volatility (st : AnomalyDetectorState) (token : String)
    (new_price : ℚ) (threshold : ℚ) (now : ℤ) : Option Alert × AnomalyDetectorState :=
  let history := st.price_histories token
  match get_last_price history with
  | none =>
    (none, { st with price_histories :=
               Function.update st.price_histories token (history_add history new_price now) })
  | some last_price =>
    let change_percent := |new_price - last_price| / last_price
    if threshold < change_percent then
      let alert := Alert.high_volatility token last_price new_price
        (change_percent * 100) (threshold * 100) now
        (if change_percent < 1 / 5 then "warning" else "critical")
      (some alert,
       { st with alerts := st.alerts ++ [alert],
                 price_histories :=
                   Function.update st.price_histories token (history_add history new_price now) })
    else
      (none, { st with price_histories :=
                 Function.update st.price_histories token (history_add history new_price now) })

/-- The `divergent_sources` accumulation loop of
`AnomalyDetector.check_data_source_divergence` (`data_quality_monitor.py`
lines 96-109): the valid points deviating from the consensus price by
strictly more than `threshold`. -/
def divergentSources (datapoints : List DataPoint) (consensus_price threshold : ℚ) :
    List DivergentSource :=
  (datapoints.filter (·.is_valid)).filterMap (fun dp =>
    let deviation := |dp.price - consensus_price| / consensus_price
    if threshold < deviation then
      some ⟨dp.source, dp.price, deviation * 100⟩
    else none)

/-- `AnomalyDetector.check_data_source_divergence` (`data_quality_monitor.py`
lines 88-130): collect the valid points deviating from the consensus price by
strictly more than `threshold`; raise one warning alert when they number at
least a third of ALL passed data points (valid or not). -/
def check_data_source_divergence (token : String) (datapoints : List DataPoint)
    (consensus_price : ℚ) (threshold : ℚ) (now : ℤ) (alerts : List Alert) :
    Option Alert × List Alert :=
  let divergent_sources := divergentSources datapoints consensus_price threshold
  if (datapoints.length : ℚ) / 3 ≤ (divergent_sources.length : ℚ) then
    let alert := Alert.data_divergence token consensus_price divergent_sources now "warning"
    (some alert, alerts ++ [alert])
  else
    (none, alerts)

/-- `unavailable_count` of `AnomalyDetector.check_system_failure`
(`data_quality_monitor.py` line 164). -/
def unavailableCount (sources : List DataSourceState) : ℕ :=
  (sources.filter (fun s => !s.is_available)).length

/-- `AnomalyDetector.check_system_failure` (`data_quality_monitor.py`
lines 162-184): count the unavailable sources and raise one critical
`system_failure` alert when they are at least two thirds of all sources. -/
def check_system_failure (sources : List DataSourceState) (now : ℤ)
    (alerts : List Alert) : Option Alert × List Alert :=
  let unavailable_count := unavailableCount sources
  let total_count := sources.length
  if (total_count : ℚ) * 2 / 3 ≤ (unavailable_count : ℚ) then
    let alert := Alert.system_failure unavailable_count total_count now "critical"
    (some alert, alerts ++ [alert])
  else
    (none, alerts)

/-- `DataQualityCalculator.calculate_freshness` (`data_quality_monitor.py`
lines 202-213): 1.0 up to an age of 60 s, then `max 0 (1 - (age-60)/240)` up
to 300 s, then 0. -/
def calculate_freshness (current_time timestamp : ℤ) : ℚ :=
  let age := current_time - timestamp
  if age ≤ 60 then 1
  else if age ≤ 300 then max 0 (1 - ((age : ℚ) - 60) / 240)
  else 0

/-! ### Concrete inputs used by the claim theorems -/

/-- The timestamp-free part of a `ConsensusResult`: every field except
`timestamp`, in declaration order. -/
def consensusCore (r : ConsensusResult) : ℚ × ℚ × ℕ × ℕ × List String :=
  (r.price, r.std_dev, r.data_points, r.filtered_points, r.sources)

/-- A single valid LP pool data point (TVL 50, APY 5, volume 10, fresh). -/
def lpPoolEx : LPPoolData :=
  ⟨"defillama", "0xpool", "uniswap_v3", "ethereum", "WETH", "USDC",
   3 / 1000, 50, 10, 5, 0, true, []⟩

/-- An LP pool point with a negative APY but nonnegative TVL and volume. -/
def negativeApyPool : LPPoolData :=
  ⟨"defillama", "0xpool", "uniswap_v3", "ethereum", "WETH", "USDC",
   3 / 1000, 50, 10, -5, 0, true, []⟩

/-- Three valid spot points with prices 100, 101 and 10000 (the spec's
IQR-outlier scenario), all fresh at time 0. -/
def outlierPoints : List DataPoint :=
  [⟨"coingecko", "ETH", 100, 0, true, []⟩,
   ⟨"defillama", "ETH", 101, 0, true, []⟩,
   ⟨"binance", "ETH", 10000, 0, true, []⟩]

/-- Two valid spot points with prices 100 and 101, fresh at time 0. -/
def twoPoints : List DataPoint :=
  [⟨"coingecko", "ETH", 100, 0, true, []⟩,
   ⟨"defillama", "ETH", 101, 0, true, []⟩]

/-- A fresh source health state with no recorded errors. -/
def freshSource : DataSourceState := ⟨"defillama", 0, true, 0⟩

/-- Three monitored sources of which exactly two are unavailable. -/
def threeSourcesTwoDown : List DataSourceState :=
  [⟨"coingecko", 0, false, 3⟩, ⟨"defillama", 0, false, 3⟩, ⟨"binance", 0, true, 0⟩]

/-- Four monitored sources of which exactly three are unavailable. -/
def fourSourcesThreeDown : List DataSourceState :=
  [⟨"coingecko", 0, false, 3⟩, ⟨"defillama", 0, false, 3⟩,
   ⟨"binance", 0, false, 4⟩, ⟨"uniswap", 0, true, 0⟩]

/-- Six data points: three valid (prices 100, 100, 120 — only the last one
deviates from a consensus of 100 by more than 5 %) and three invalid. -/
def divergenceExample : List DataPoint :=
  [⟨"a", "ETH", 100, 0, true, []⟩,
   ⟨"b", "ETH", 100, 0, true, []⟩,
   ⟨"c", "ETH", 120, 0, true, []⟩,
   ⟨"d", "ETH", 0, 0, false, ["Invalid price (<=0)"]⟩,
   ⟨"e", "ETH", 0, 0, false, ["Invalid price (<=0)"]⟩,
   ⟨"f", "ETH", 0, 0, false, ["Invalid price (<=0)"]⟩]

/-- Three valid data points of which two (90 and 120) deviate from a
consensus of 100 by more than 5 %. -/
def divergenceRaisedExample : List DataPoint :=
  [⟨"a", "ETH", 100, 0, true, []⟩,
   ⟨"b", "ETH", 90, 0, true, []⟩,
   ⟨"c", "ETH", 120, 0, true, []⟩]

/-! ### Shared helper lemmas -/

theorem lp_consensus_none_of_no_valid (pts : List LPPoolData) (now : ℤ)
    (h : pts.filter (·.is_valid) = []) : lp_calculate_consensus pts now = none := by
  unfold lp_calculate_consensus
  split
  · rfl
  · rw [if_pos (by simp [h])]

theorem lp_consensus_some_of_valid (pts : List LPPoolData) (now : ℤ)
    (h : pts.filter (·.is_valid) ≠ []) :
    lp_calculate_consensus pts now = some
      { pool_address := (pts.filter (·.is_valid)).headI.pool_address
        protocol := (pts.filter (·.is_valid)).headI.protocol
        chain := (pts.filter (·.is_valid)).headI.chain
        token0 := (pts.filter (·.is_valid)).headI.token0
        token1 := (pts.filter (·.is_valid)).headI.token1
        fee_tier := (pts.filter (·.is_valid)).headI.fee_tier
        tvl := if (((pts.filter (·.is_valid)).map (·.tvl)).filter
                  (fun x => decide (0 < x))).isEmpty then 0
               else pyMedian (((pts.filter (·.is_valid)).map (·.tvl)).filter
                  (fun x => decide (0 < x)))
        apy := if (positiveApys pts).isEmpty then 0 else pyMedian (positiveApys pts)
        volume_24h := if (((pts.filter (·.is_valid)).map (·.volume_24h)).filter
                  (fun x => decide (0 < x))).isEmpty then 0
               else pyMedian (((pts.filter (·.is_valid)).map (·.volume_24h)).filter
                  (fun x => decide (0 < x)))
        data_points := (pts.filter (·.is_valid)).length
        sources := (pts.filter (·.is_valid)).map (·.source)
        tvl_std_dev := if 1 < (((pts.filter (·.is_valid)).map (·.tvl)).filter
                  (fun x => decide (0 < x))).length
               then sampleVariance (((pts.filter (·.is_valid)).map (·.tvl)).filter
                  (fun x => decide (0 < x))) else 0
        apy_std_dev := if 1 < (positiveApys pts).length
               then sampleVariance (positiveApys pts) else 0
        timestamp := now } := by
  have hpts : pts ≠ [] := by
    intro hc
    exact h (by simp [hc])
  have hlen : 0 < (pts.filter (·.is_valid)).length := List.length_pos.mpr h
  unfold lp_calculate_consensus
  rw [if_neg (by simpa using hpts), if_neg (by omega)]

/-! ### Claim theorems -/

/-- C1 counterexample: the LP consensus engine does NOT return the
unavailable marker on a single valid data point — with exactly one valid LP
pool point it returns a numeric consensus, refuting the claim that both
consensus engines return `None` for every set with 0 or 1 valid points. -/
theorem lp_consensus_single_valid_point_returns_result :
    (lp_calculate_consensus [lpPoolEx] 0).isSome = true := by
  norm_num [lp_calculate_consensus, lpPoolEx, positiveApys, pyMedian, pySorted,
    List.insertionSort, List.orderedInsert, List.filter, sampleVariance]

/-- C1 (amended): the spot consensus engine returns `None` whenever at most
one valid point is present; the LP consensus engine returns `None` exactly
when NO valid point is present (a single valid LP point already yields a
numeric consensus). -/
theorem consensus_small_set_unavailability :
    (∀ (dps : List DataPoint) (now : ℤ),
        (dps.filter (·.is_valid)).length ≤ 1 → calculate_consensus dps now = none) ∧
    (∀ (pts : List LPPoolData) (now : ℤ),
        pts.filter (·.is_valid) = [] → lp_calculate_consensus pts now = none) ∧
    (∀ (pts : List LPPoolData) (now : ℤ),
        pts.filter (·.is_valid) ≠ [] → (lp_calculate_consensus pts now).isSome = true) := by
  refine ⟨?_, fun pts now h => lp_consensus_none_of_no_valid pts now h, ?_⟩
  · intro dps now h
    unfold calculate_consensus
    split
    · rfl
    · rw [if_pos (by omega)]
  · intro pts now h
    rw [lp_consensus_some_of_valid pts now h]
    rfl

/-- C1 witness: the amended statement applied at concrete inputs — one valid
spot point gives no spot consensus, no valid LP point gives no LP consensus,
and one valid LP point gives an LP consensus. -/
theorem consensus_small_set_unavailability_witness :
    calculate_consensus [⟨"coingecko", "ETH", 100, 0, true, []⟩] 0 = none ∧
    lp_calculate_consensus [{ lpPoolEx with is_valid := false }] 0 = none ∧
    (lp_calculate_consensus [lpPoolEx] 5).isSome = true := by
  refine ⟨consensus_small_set_unavailability.1 _ 0 (by decide),
    consensus_small_set_unavailability.2.1 _ 0 (by decide),
    consensus_small_set_unavailability.2.2 _ 5 (by decide)⟩

/-- C2 counterexample: on the spec's scenario {100, 101, 10000} the consensus
price is NOT 100.5 — CPython's exclusive-method quartiles of a 3-element list
are its minimum and maximum, so the IQR bounds contain every point and the
value 10000 is never dropped. -/
theorem outlier_scenario_price_not_midpoint :
    (calculate_consensus outlierPoints 0).map (·.price) ≠ some (201 / 2) := by
  norm_num [calculate_consensus, outlierPoints, pyMedian, pySorted, pyQuantile4,
    List.insertionSort, List.orderedInsert, List.filter, sampleVariance]

/-- C2 (amended): for prices {100, 101, 10000} the exclusive quartiles are
Q1 = 100 and Q3 = 10000, IQR filtering removes nothing (all 3 points remain),
and the consensus price is the median 101. -/
theorem outlier_scenario_actual_consensus :
    pyQuantile4 ((outlierPoints.filter (·.is_valid)).map (·.price)) 1 = 100 ∧
    pyQuantile4 ((outlierPoints.filter (·.is_valid)).map (·.price)) 3 = 10000 ∧
    (calculate_consensus outlierPoints 0).map
      (fun r => (r.price, r.filtered_points, r.data_points)) = some (101, 3, 3) := by
  refine ⟨?_, ?_, ?_⟩
  · norm_num [outlierPoints, pySorted, pyQuantile4,
      List.insertionSort, List.orderedInsert, List.filter]
  · norm_num [outlierPoints, pySorted, pyQuantile4,
      List.insertionSort, List.orderedInsert, List.filter]
  · norm_num [calculate_consensus, outlierPoints, pyMedian, pySorted, pyQuantile4,
      List.insertionSort, List.orderedInsert, List.filter, sampleVariance]

/-- C3 counterexample: the health protocol of the claim fails on two fronts —
a price fetch that fails with a non-200 response or a missing payload leaves
the health state completely untouched (no increment, no flip), and the
pool-search path ignores the protocol even on its exception path: three
consecutive `search_pools` exceptions leave the source marked available (the
claim demands the flip at the third), and a `search_pools` success after an
exception leaves the consecutive-error count at 1 instead of resetting it
to 0. -/
theorem fetch_failure_paths_break_protocol :
    fetch_price_update freshSource .soft_failure 5 = freshSource ∧
    ((fun t => search_pools_update t .exception 5)^[3] freshSource).is_available = true ∧
    (search_pools_update (search_pools_update freshSource .exception 5) .success 7).error_count
      = 1 := by
  decide

/-- C3 (amended): a successful price/pool fetch resets the error streak to 0,
marks the source available and records the timestamp; only a fetch failing
with a RAISED EXCEPTION increments the streak and (when the source was
available) flips availability to false exactly when the streak reaches 3,
while a fetch failing with a non-200 response or a missing payload returns
the empty result with no state change at all; the pool-search path deviates
further — its success marks availability and the timestamp without resetting
the streak, its non-200 failure changes nothing, and its exceptions increment
the streak without ever touching availability. -/
theorem source_health_transitions :
    (∀ (s : DataSourceState) (now : ℤ),
        (fetch_price_update s .success now).error_count = 0 ∧
        (fetch_price_update s .success now).is_available = true ∧
        (fetch_price_update s .success now).last_update = now) ∧
    (∀ (s : DataSourceState) (now : ℤ),
        (fetch_price_update s .exception now).error_count = s.error_count + 1) ∧
    (∀ (s : DataSourceState) (now : ℤ), s.is_available = true →
        ((fetch_price_update s .exception now).is_available = false ↔
          3 ≤ s.error_count + 1)) ∧
    (∀ (s : DataSourceState) (now : ℤ), fetch_price_update s .soft_failure now = s) ∧
    (∀ (s : DataSourceState) (now : ℤ),
        (search_pools_update s .success now).error_count = s.error_count ∧
        (search_pools_update s .success now).is_available = true ∧
        (search_pools_update s .success now).last_update = now) ∧
    (∀ (s : DataSourceState) (now : ℤ), search_pools_update s .soft_failure now = s) ∧
    (∀ (s : DataSourceState) (n : ℕ) (now : ℤ),
        ((fun t => search_pools_update t .exception now)^[n] s).is_available
          = s.is_available ∧
        ((fun t => search_pools_update t .exception now)^[n] s).error_count
          = s.error_count + n) := by
  refine ⟨fun s now => ⟨rfl, rfl, rfl⟩, fun s now => rfl, ?_, fun s now => rfl,
    fun s now => ⟨rfl, rfl, rfl⟩, fun s now => rfl, ?_⟩
  · intro s now hs
    unfold fetch_price_update
    dsimp only
    split
    · simp [*]
    · simp only [hs]
      constructor
      · intro hc
        exact absurd hc (by simp)
      · intro hc
        omega
  · intro s n now
    induction n generalizing s with
    | zero => exact ⟨rfl, rfl⟩
    | succ k ih =>
      rw [Function.iterate_succ_apply]
      refine ⟨(ih (search_pools_update s .exception now)).1, ?_⟩
      rw [(ih (search_pools_update s .exception now)).2]
      dsimp only [search_pools_update]
      omega

/-- C3 witness: the amended statement at concrete states — a fetch exception
at error streak 2 flips availability, a soft fetch failure changes nothing,
and three iterated search exceptions leave the count at 3 while availability
stays true. -/
theorem source_health_transitions_witness :
    (fetch_price_update ⟨"coingecko", 0, true, 2⟩ .exception 9).is_available = false ∧
    fetch_price_update freshSource .soft_failure 9 = freshSource ∧
    ((fun t => search_pools_update t .exception 9)^[3] freshSource).error_count = 3 ∧
    ((fun t => search_pools_update t .exception 9)^[3] freshSource).is_available = true := by
  refine ⟨(source_health_transitions.2.2.1 ⟨"coingecko", 0, true, 2⟩ 9 rfl).mpr (by norm_num),
    source_health_transitions.2.2.2.1 freshSource 9,
    ((source_health_transitions.2.2.2.2.2.2 freshSource 3 9).2).trans (by decide),
    ((source_health_transitions.2.2.2.2.2.2 freshSource 3 9).1).trans (by decide)⟩

/-- C4 counterexample: with 2 of 3 sources unavailable the unavailable
fraction equals ⅔ exactly — it does not EXCEED ⅔ — yet the system-failure
alert is raised, because the code compares with `>=`, not `>`. -/
theorem system_failure_raised_at_exactly_two_thirds :
    ((unavailableCount threeSourcesTwoDown : ℚ) / threeSourcesTwoDown.length = 2 / 3) ∧
    (check_system_failure threeSourcesTwoDown 0 []).1.isSome = true := by
  constructor
  · norm_num [unavailableCount, threeSourcesTwoDown]
  · norm_num [check_system_failure, unavailableCount, threeSourcesTwoDown]

/-- C4 (amended): `check_system_failure` raises an alert exactly when the
unavailable sources are AT LEAST two thirds of all registered sources
(`3·unavailable ≥ 2·total`, the boundary included); the alert always has
severity critical and at most one alert is appended per check; with 3 of 4
sources unavailable the alert is raised. -/
theorem system_failure_threshold_inclusive :
    (∀ (sources : List DataSourceState) (now : ℤ) (alerts : List Alert),
      check_system_failure sources now alerts =
        (if 2 * sources.length ≤ 3 * unavailableCount sources then
          (some (Alert.system_failure (unavailableCount sources) sources.length now "critical"),
           alerts ++ [Alert.system_failure (unavailableCount sources) sources.length now "critical"])
         else (none, alerts))) ∧
    (check_system_failure fourSourcesThreeDown 0 []).1.isSome = true := by
  constructor
  · intro sources now alerts
    have hiff : ((sources.length : ℚ) * 2 / 3 ≤ (unavailableCount sources : ℚ)) ↔
        2 * sources.length ≤ 3 * unavailableCount sources := by
      rw [div_le_iff₀ (by norm_num : (0 : ℚ) < 3)]
      constructor
      · intro hq
        have : ((2 * sources.length : ℕ) : ℚ) ≤ ((3 * unavailableCount sources : ℕ) : ℚ) := by
          push_cast
          linarith
        exact_mod_cast this
      · intro hn
        have : ((2 * sources.length : ℕ) : ℚ) ≤ ((3 * unavailableCount sources : ℕ) : ℚ) := by
          exact_mod_cast hn
        push_cast at this
        linarith
    unfold check_system_failure
    simp only [hiff]
  · norm_num [check_system_failure, unavailableCount, fourSourcesThreeDown]

/-- C5 counterexample: with 3 valid points of which 1 deviates from the
consensus by more than 5 % (a third of the contributing sources, so the claim
demands an alert) and 3 additional invalid points, no alert is raised — the
code divides by the number of ALL passed data points, 6, not by the 3
contributing ones. -/
theorem divergence_missed_with_invalid_points_present :
    (divergentSources divergenceExample 100 (1 / 20)).length = 1 ∧
    (divergenceExample.filter (·.is_valid)).length = 3 ∧
    (check_data_source_divergence "ETH" divergenceExample 100 (1 / 20) 0 []).1 = none := by
  refine ⟨?_, by decide, ?_⟩
  · norm_num [divergentSources, divergenceExample, List.filterMap, List.filter, abs]
  · norm_num [check_data_source_divergence, divergentSources, divergenceExample,
      List.filterMap, List.filter, abs]

/-- C5 (amended): for a positive consensus estimate, the warning divergence
alert is raised if and only if the number of VALID points deviating by
strictly more than the threshold is at least one third of the number of ALL
passed data points, invalid ones included (`3·divergent ≥ total`), and at
most one alert is appended per check. -/
theorem divergence_denominator_counts_all_points (token : String)
    (dps : List DataPoint) (c θ : ℚ) (now : ℤ) (alerts : List Alert) (_hc : 0 < c) :
    check_data_source_divergence token dps c θ now alerts =
      (if dps.length ≤ 3 * (divergentSources dps c θ).length then
        (some (Alert.data_divergence token c (divergentSources dps c θ) now "warning"),
         alerts ++ [Alert.data_divergence token c (divergentSources dps c θ) now "warning"])
       else (none, alerts)) := by
  have hiff : ((dps.length : ℚ) / 3 ≤ ((divergentSources dps c θ).length : ℚ)) ↔
      dps.length ≤ 3 * (divergentSources dps c θ).length := by
    rw [div_le_iff₀ (by norm_num : (0 : ℚ) < 3)]
    constructor
    · intro hq
      have : ((dps.length : ℕ) : ℚ) ≤ ((3 * (divergentSources dps c θ).length : ℕ) : ℚ) := by
        push_cast
        linarith
      exact_mod_cast this
    · intro hn
      have : ((dps.length : ℕ) : ℚ) ≤ ((3 * (divergentSources dps c θ).length : ℕ) : ℚ) := by
        exact_mod_cast hn
      push_cast at this
      linarith
  unfold check_data_source_divergence
  simp only [hiff]

/-- C5 witness: the amended statement applied at a concrete positive
consensus, on the round where two of three valid sources deviate and the
alert is raised. -/
theorem divergence_denominator_counts_all_points_witness :
    (check_data_source_divergence "ETH" divergenceRaisedExample 100 (1 / 20) 0 []).1.isSome
      = true := by
  rw [divergence_denominator_counts_all_points "ETH" divergenceRaisedExample 100 (1 / 20) 0 []
    (by norm_num)]
  norm_num [divergentSources, divergenceRaisedExample, List.filterMap, List.filter, abs]

/-- C6 counterexample: re-running the consensus on the unchanged two-point
set one second later does NOT yield a bit-identical result — the `timestamp`
field records each run's wall clock, so the two `ConsensusResult`s differ. -/
theorem consensus_rerun_timestamp_differs :
    calculate_consensus twoPoints 1000 ≠ calculate_consensus twoPoints 1001 := by
  norm_num [calculate_consensus, twoPoints, pyMedian, pySorted, pyQuantile4,
    List.insertionSort, List.orderedInsert, List.filter, sampleVariance,
    ConsensusResult.mk.injEq]

/-- C6 (amended): re-running the consensus on an unchanged `DataPoint` set is
deterministic in every field EXCEPT the computed-at timestamp: price,
std_dev, data_points, filtered_points and sources agree between any two runs,
while the timestamp field always equals the clock reading of its own run. -/
theorem consensus_rerun_identical_except_timestamp (dps : List DataPoint) (t1 t2 : ℤ) :
    (calculate_consensus dps t1).map consensusCore
      = (calculate_consensus dps t2).map consensusCore ∧
    ((calculate_consensus dps t1).map (·.timestamp)).getD t1 = t1 := by
  unfold calculate_consensus
  constructor <;>
  · dsimp only
    split
    · rfl
    · split
      · rfl
      · rfl

/-- C7 counterexample: a pool data point with a negative APY (and nonnegative
TVL and volume) passes `validate_pool_data` unchanged — it is NOT marked
invalid, refuting the claim that a negative APY invalidates the point. -/
theorem negative_apy_pool_not_invalidated :
    validate_pool_data negativeApyPool 0 = (true, negativeApyPool) ∧
    negativeApyPool.apy < 0 := by
  norm_num [validate_pool_data, negativeApyPool]

/-- C7 (amended): a fresh spot point with price ≤ 0 is marked invalid with
the reason recorded; a fresh pool point with negative TVL, or with negative
24 h volume, is marked invalid with the reason recorded; but a fresh pool
point with nonnegative TVL and volume always validates unchanged — in
particular a negative APY is only warned about (never invalidated) and an APY
of exactly 0 is not grounds for invalidity. -/
theorem validator_sign_rules :
    (∀ (dp : DataPoint) (now : ℤ), now - dp.timestamp ≤ 60 → dp.price ≤ 0 →
        validate_datapoint dp now =
          (false, { dp with is_valid := false,
                            validation_errors := dp.validation_errors ++ ["Invalid price (<=0)"] })) ∧
    (∀ (p : LPPoolData) (now : ℤ), now - p.timestamp ≤ 300 → p.tvl < 0 →
        validate_pool_data p now =
          (false, { p with is_valid := false,
                           validation_errors := p.validation_errors ++ ["Invalid TVL (<0)"] })) ∧
    (∀ (p : LPPoolData) (now : ℤ), now - p.timestamp ≤ 300 → 0 ≤ p.tvl → p.volume_24h < 0 →
        validate_pool_data p now =
          (false, { p with is_valid := false,
                           validation_errors := p.validation_errors ++ ["Invalid volume (<0)"] })) ∧
    (∀ (p : LPPoolData) (now : ℤ), now - p.timestamp ≤ 300 → 0 ≤ p.tvl → 0 ≤ p.volume_24h →
        validate_pool_data p now = (true, p)) := by
  refine ⟨?_, ?_, ?_, ?_⟩
  · intro dp now h1 h2
    unfold validate_datapoint
    rw [if_neg (by omega), if_pos h2]
  · intro p now h1 h2
    unfold validate_pool_data
    rw [if_neg (by omega), if_pos h2]
  · intro p now h1 h2 h3
    unfold validate_pool_data
    rw [if_neg (by omega), if_neg (not_lt.mpr h2), if_pos h3]
  · intro p now h1 h2 h3
    unfold validate_pool_data
    rw [if_neg (by omega), if_neg (not_lt.mpr h2), if_neg (not_lt.mpr h3)]

/-- C7 witness: the amended statement at concrete points — a negative spot
price, a negative TVL and a negative volume each invalidate with a reason,
while the negative-APY pool validates unchanged. -/
theorem validator_sign_rules_witness :
    validate_datapoint ⟨"coingecko", "ETH", -3, 0, true, []⟩ 0 =
      (false, ⟨"coingecko", "ETH", -3, 0, false, ["Invalid price (<=0)"]⟩) ∧
    validate_pool_data { lpPoolEx with tvl := -1 } 0 =
      (false, { lpPoolEx with tvl := -1, is_valid := false,
                              validation_errors := ["Invalid TVL (<0)"] }) ∧
    validate_pool_data { lpPoolEx with volume_24h := -2 } 0 =
      (false, { lpPoolEx with volume_24h := -2, is_valid := false,
                              validation_errors := ["Invalid volume (<0)"] }) ∧
    validate_pool_data negativeApyPool 0 = (true, negativeApyPool) := by
  refine ⟨validator_sign_rules.1 _ 0 (by decide) (by norm_num),
    (validator_sign_rules.2.1 _ 0 (by decide) (by norm_num [lpPoolEx])).trans
      (by norm_num [lpPoolEx]),
    (validator_sign_rules.2.2.1 _ 0 (by decide) (by norm_num [lpPoolEx])
      (by norm_num [lpPoolEx])).trans (by norm_num [lpPoolEx]),
    validator_sign_rules.2.2.2 _ 0 (by decide) (by norm_num [negativeApyPool])
      (by norm_num [negativeApyPool])⟩

theorem freshness_shift (ct ts : ℤ) :
    calculate_freshness ct ts = calculate_freshness (ct - ts) 0 := by
  unfold calculate_freshness
  norm_num

theorem freshness_of_le_60 {a : ℤ} (h : a ≤ 60) : calculate_freshness a 0 = 1 := by
  simp only [calculate_freshness, Int.sub_zero]
  rw [if_pos h]

theorem freshness_of_le_300 {a : ℤ} (h1 : 60 ≤ a) (h2 : a ≤ 300) :
    calculate_freshness a 0 = 1 - ((a : ℚ) - 60) / 240 := by
  simp only [calculate_freshness, Int.sub_zero]
  by_cases h0 : a ≤ 60
  · have ha : a = 60 := le_antisymm h0 h1
    subst ha
    rw [if_pos h0]
    norm_num
  · rw [if_neg h0, if_pos h2, max_eq_right]
    have hc : ((a : ℚ) - 60) / 240 ≤ 1 := by
      rw [div_le_one (by norm_num : (0 : ℚ) < 240)]
      have : (a : ℚ) ≤ 300 := by exact_mod_cast h2
      linarith
    linarith

theorem freshness_of_ge_300 {a : ℤ} (h : 300 ≤ a) : calculate_freshness a 0 = 0 := by
  simp only [calculate_freshness, Int.sub_zero]
  by_cases h3 : a ≤ 300
  · have ha : a = 300 := le_antisymm h3 h
    subst ha
    rw [if_neg (by omega), if_pos h3]
    norm_num
  · rw [if_neg (by omega), if_neg h3]

theorem freshness_nonneg (a : ℤ) : 0 ≤ calculate_freshness a 0 := by
  simp only [calculate_freshness, Int.sub_zero]
  split
  · norm_num
  · split
    · exact le_max_left 0 _
    · exact le_refl 0

theorem freshness_antitone {a b : ℤ} (hab : a ≤ b) :
    calculate_freshness b 0 ≤ calculate_freshness a 0 := by
  by_cases hb60 : b ≤ 60
  · rw [freshness_of_le_60 hb60, freshness_of_le_60 (hab.trans hb60)]
  · by_cases hb300 : b ≤ 300
    · rw [freshness_of_le_300 (by omega) hb300]
      by_cases ha60 : a ≤ 60
      · rw [freshness_of_le_60 ha60]
        have hpos : (0 : ℚ) ≤ ((b : ℚ) - 60) / 240 := by
          apply div_nonneg _ (by norm_num)
          have : (60 : ℚ) ≤ (b : ℚ) := by exact_mod_cast (by omega : (60 : ℤ) ≤ b)
          linarith
        linarith
      · rw [freshness_of_le_300 (by omega) (hab.trans hb300)]
        have hc : (a : ℚ) ≤ (b : ℚ) := by exact_mod_cast hab
        gcongr
    · rw [freshness_of_ge_300 (by omega)]
      exact freshness_nonneg a

/-- C8: the freshness sub-score depends only on the age `now - timestamp`; it
equals 1 for every age ≤ 60 s, decays linearly as `1 - (age-60)/240` between
60 s and 300 s, equals 0 for every age ≥ 300 s, and is monotonically
non-increasing in the age over the whole nonnegative domain. -/
theorem freshness_piecewise_linear_monotone :
    (∀ ct ts : ℤ, calculate_freshness ct ts = calculate_freshness (ct - ts) 0) ∧
    (∀ a : ℤ, a ≤ 60 → calculate_freshness a 0 = 1) ∧
    (∀ a : ℤ, 60 ≤ a → a ≤ 300 → calculate_freshness a 0 = 1 - ((a : ℚ) - 60) / 240) ∧
    (∀ a : ℤ, 300 ≤ a → calculate_freshness a 0 = 0) ∧
    (∀ a b : ℤ, 0 ≤ a → a ≤ b → calculate_freshness b 0 ≤ calculate_freshness a 0) :=
  ⟨freshness_shift, fun _ h => freshness_of_le_60 h,
   fun _ h1 h2 => freshness_of_le_300 h1 h2, fun _ h => freshness_of_ge_300 h,
   fun _ _ _ hab => freshness_antitone hab⟩

/-- C8 witness: the freshness statement at concrete ages — 1.0 at age 50 s,
1/2 at age 180 s, 0 at age 400 s, and monotone between ages 100 s and
200 s. -/
theorem freshness_piecewise_linear_monotone_witness :
    calculate_freshness 100 40 = calculate_freshness 60 0 ∧
    calculate_freshness 50 0 = 1 ∧
    calculate_freshness 180 0 = 1 - ((180 : ℚ) - 60) / 240 ∧
    calculate_freshness 400 0 = 0 ∧
    calculate_freshness 200 0 ≤ calculate_freshness 100 0 :=
  ⟨freshness_piecewise_linear_monotone.1 100 40,
   freshness_piecewise_linear_monotone.2.1 50 (by norm_num),
   freshness_piecewise_linear_monotone.2.2.1 180 (by norm_num) (by norm_num),
   freshness_piecewise_linear_monotone.2.2.2.1 400 (by norm_num),
   freshness_piecewise_linear_monotone.2.2.2.2 100 200 (by norm_num) (by norm_num)⟩

theorem get_last_price_history_add (h : List HistEntry) (p : ℚ) (t : ℤ) :
    get_last_price (history_add h p t) = some p := by
  unfold get_last_price history_add
  rw [List.drop_append_of_le_length (by simp)]
  simp [List.getLast?_concat]

/-- C9: after every call to `check_price_volatility` — first call for the
token, alert raised, or no alert — the token's stored price history ends with
the new price, so `get_last_price` returns it. -/
theorem volatility_check_always_records_price (st : AnomalyDetectorState) (token : String)
    (new_price threshold : ℚ) (now : ℤ) :
    get_last_price
      (((check_price_volatility st token new_price threshold now).2).price_histories token)
      = some new_price := by
  unfold check_price_volatility
  cases hlp : get_last_price (st.price_histories token) with
  | none => simp [hlp, Function.update_same, get_last_price_history_add]
  | some lp =>
    by_cases hth : threshold < |new_price - lp| / lp
    · simp [hlp, hth, Function.update_same, get_last_price_history_add]
    · simp [hlp, hth, Function.update_same, get_last_price_history_add]

theorem pyMedian_pos (l : List ℚ) (hne : l ≠ []) (hpos : ∀ x ∈ l, 0 < x) :
    0 < pyMedian l := by
  unfold pyMedian pySorted
  have hperm := List.perm_insertionSort (· ≤ ·) l
  have hmem : ∀ x ∈ List.insertionSort (· ≤ ·) l, 0 < x :=
    fun x hx => hpos x (hperm.mem_iff.mp hx)
  have hlen : 0 < (List.insertionSort (· ≤ ·) l).length := by
    rw [hperm.length_eq]
    exact List.length_pos.mpr hne
  dsimp only
  split
  · have hidx : (List.insertionSort (· ≤ ·) l).length / 2
        < (List.insertionSort (· ≤ ·) l).length := Nat.div_lt_self hlen one_lt_two
    rw [List.getD_eq_getElem _ _ hidx]
    exact hmem _ (List.getElem_mem hidx)
  · have hidx2 : (List.insertionSort (· ≤ ·) l).length / 2
        < (List.insertionSort (· ≤ ·) l).length := Nat.div_lt_self hlen one_lt_two
    have hidx1 : (List.insertionSort (· ≤ ·) l).length / 2 - 1
        < (List.insertionSort (· ≤ ·) l).length := by omega
    rw [List.getD_eq_getElem _ _ hidx1, List.getD_eq_getElem _ _ hidx2]
    have p1 := hmem _ (List.getElem_mem hidx1)
    have p2 := hmem _ (List.getElem_mem hidx2)
    positivity

/-- C10: whenever the LP consensus is computed (at least one valid point),
its APY equals the median of the strictly positive APY values of the valid
points, is 0 exactly when no valid point has a positive APY, is itself
strictly positive whenever some valid point does, and appending a valid point
whose APY is 0 (or negative) never changes the APY consensus. -/
theorem lp_apy_consensus_median_of_positive (pts : List LPPoolData) (now : ℤ)
    (h : pts.filter (·.is_valid) ≠ []) :
    ∃ r, lp_calculate_consensus pts now = some r ∧
      r.apy = (if positiveApys pts = [] then 0 else pyMedian (positiveApys pts)) ∧
      (positiveApys pts ≠ [] → 0 < r.apy) ∧
      (∀ z : LPPoolData, z.is_valid = true → z.apy ≤ 0 →
        (lp_calculate_consensus (pts ++ [z]) now).map (·.apy) = some r.apy) := by
  refine ⟨_, lp_consensus_some_of_valid pts now h, ?_, ?_, ?_⟩
  · simp [List.isEmpty_iff]
  · intro hne
    show 0 < if (positiveApys pts).isEmpty then 0 else pyMedian (positiveApys pts)
    rw [if_neg (by simpa using hne)]
    refine pyMedian_pos _ hne ?_
    intro x hx
    unfold positiveApys at hx
    rw [List.mem_filter] at hx
    exact of_decide_eq_true hx.2
  · intro z hz hzapy
    have h2 : (pts ++ [z]).filter (·.is_valid) ≠ [] := by
      simp [List.filter_append, hz]
    rw [lp_consensus_some_of_valid _ now h2]
    have hdz : decide (0 < z.apy) = false := decide_eq_false (not_lt.mpr hzapy)
    have hpa : positiveApys (pts ++ [z]) = positiveApys pts := by
      unfold positiveApys
      simp [List.filter_append, hz, hdz]
    simp [hpa]

/-- C10 witness: on the single valid pool with APY 5 the consensus APY is
5. -/
theorem lp_apy_consensus_median_of_positive_witness :
    (lp_calculate_consensus [lpPoolEx] 11).map (·.apy) = some 5 := by
  obtain ⟨r, hr, hapy, -, -⟩ := lp_apy_consensus_median_of_positive [lpPoolEx] 11 (by decide)
  rw [hr]
  simp only [Option.map_some']
  rw [hapy]
  norm_num [positiveApys, lpPoolEx, pyMedian, pySorted, List.insertionSort,
    List.orderedInsert, List.filter]

end LiveALittle
